import Mathlib

/-!
Shallow embedding of the rag-youtube-assistant core (src/app/rag.py,
src/app/query_rewriter.py, src/app/main.py) and proofs about the claims
of its specification.

External collaborators (the ollama chat endpoint, the Elasticsearch
search, the sqlite-backed `db_handler`, `pandas.DataFrame.sample`,
`json.loads`) are modelled as explicit oracle parameters or as
spec-modelled state operations; each such definition says so in its doc
comment.  Python exceptions raised by a collaborator appear as
`Except.error`; a Python function that catches every exception is
embedded with a non-exceptional return type.
-/

set_option maxRecDepth 4000

/-! ### A model of Python JSON values (results of `json.loads`) -/

/-- A JSON value as produced by Python `json.loads`. -/
inductive Json where
  | null
  | bool (b : Bool)
  | num (n : Int)
  | str (s : String)
  | arr (elems : List Json)
  | obj (fields : List (String × Json))

/-- Python truthiness of a JSON value (`if questions:` etc.). -/
def pyTruthy : Json → Bool
  | Json.null => false
  | Json.bool b => b
  | Json.num n => n != 0
  | Json.str s => s != ""
  | Json.arr xs => !xs.isEmpty
  | Json.obj fs => !fs.isEmpty

/-- Lookup of a key in a parsed JSON object (`dict` access / `dict.get`). -/
def jsonLookup (fs : List (String × Json)) (k : String) : Option Json :=
  (fs.find? (fun f => f.1 == k)).map (fun f => f.2)

/-- Whether the character list `needle` occurs inside `hay`
(Python `needle in hay` for strings). -/
def charListInfix (needle : List Char) : List Char → Bool
  | [] => needle.isEmpty
  | c :: rest => needle.isPrefixOf (c :: rest) || charListInfix needle rest

/-- Python `key in j`: key membership for dicts, element membership for
lists, substring test for strings, `TypeError` otherwise. -/
def pyContainsStr (j : Json) (key : String) : Except String Bool :=
  match j with
  | Json.obj fs => Except.ok (jsonLookup fs key).isSome
  | Json.arr xs =>
      Except.ok (xs.any (fun x => match x with
        | Json.str s => s == key
        | _ => false))
  | Json.str s => Except.ok (charListInfix key.data s.data)
  | _ => Except.error "TypeError: argument is not iterable"

/-- Python `j[key]` for a string key: dict lookup (`KeyError` when the
key is missing), `TypeError` on every non-dict value. -/
def pyGetItemStr (j : Json) (key : String) : Except String Json :=
  match j with
  | Json.obj fs =>
      match jsonLookup fs key with
      | some v => Except.ok v
      | none => Except.error ("KeyError: " ++ key)
  | _ => Except.error "TypeError: value is not subscriptable"

/-- Python iteration `for q in v`: elements of a list, characters of a
string, keys of a dict, `TypeError` otherwise. -/
def pyIter : Json → Except String (List Json)
  | Json.arr xs => Except.ok xs
  | Json.str s => Except.ok (s.data.map (fun c => Json.str (String.singleton c)))
  | Json.obj fs => Except.ok (fs.map (fun f => Json.str f.1))
  | _ => Except.error "TypeError: object is not iterable"

/-- Python `str()` restricted to scalar JSON values; containers are
rendered one level deep (no claim depends on nested rendering). -/
def pyScalar : Json → String
  | Json.null => "None"
  | Json.bool true => "True"
  | Json.bool false => "False"
  | Json.num n => toString n
  | Json.str s => s
  | Json.arr _ => "[...]"
  | Json.obj _ => "\x7b...\x7d"

/-- Python `str()` of a JSON value as used in
`str(evaluation_json.get('Relevance', 'UNKNOWN'))`. -/
def pyStr : Json → String
  | Json.arr xs => "[" ++ String.intercalate ", " (xs.map pyScalar) ++ "]"
  | Json.obj fs =>
      "\x7b" ++ String.intercalate ", " (fs.map (fun f => "\x27" ++ f.1 ++ "\x27: " ++ pyScalar f.2)) ++ "\x7d"
  | j => pyScalar j

/-- Python `s.startswith(p)`: prefix test on the character sequence. -/
def pyStartswith (s p : String) : Bool :=
  p.data.isPrefixOf s.data

/-! ### rag.py — `RAGSystem` -/

namespace RAGSystem

/-- A retrieved document as returned by `data_processor.search`. -/
structure Doc where
  content : String
deriving DecidableEq

/-- Outcome of one call to `RAGSystem.generate`: the returned value
(`some text` for a returned string, `none` for the Python `None`
returned after exhausting retries), the sleeps performed between failed
attempts (in time units, in order), and the number of attempts made.
`generate` catches every exception of the underlying chat call, so there
is no exceptional outcome: the result type has no error constructor. -/
structure GenOutcome where
  result : Option String
  sleeps : List Nat
  attempts : Nat
deriving DecidableEq

/-- The retry loop of `RAGSystem.generate` (rag.py lines 56-70).
`oracle i` is the outcome of the `ollama.chat` call on attempt `i`
(`Except.error` = the call raised).  `attempt` is the Python loop
variable and `remaining` the number of loop iterations left
(`max_retries - attempt`); `remaining = 1` is exactly the Python guard
`attempt == max_retries - 1`, and `remaining = 0` the (only for
`max_retries = 0` reachable) fall-off-the-loop return of `None`.
On a failed attempt that is not the last, the code sleeps
`2 ** attempt` time units. -/
def generateGo (oracle : Nat → Except String String) : Nat → Nat → GenOutcome
  | _, 0 => ⟨none, [], 0⟩
  | attempt, remaining + 1 =>
    match oracle attempt with
    | Except.ok content => ⟨some content, [], 1⟩
    | Except.error _ =>
      if remaining = 0 then ⟨none, [], 1⟩
      else
        let rest := generateGo oracle (attempt + 1) remaining
        ⟨rest.result, 2 ^ attempt :: rest.sleeps, rest.attempts + 1⟩

/-- `RAGSystem.generate(self, prompt)` with `max_retries` attempts,
starting at attempt 0. -/
def generate (oracle : Nat → Except String String) (maxRetries : Nat) : GenOutcome :=
  generateGo oracle 0 maxRetries

/-- The stripped `RAG_PROMPT_TEMPLATE` of rag.py with `{context}` and
`{question}` substituted (`.format` call in `get_prompt`). -/
def ragPromptTemplate (context question : String) : String :=
  "You are an AI assistant analyzing YouTube video transcripts. Your task is to answer questions based on the provided transcript context.\n\nContext from transcript:\n"
    ++ context
    ++ "\n\nUser Question: "
    ++ question
    ++ "\n\nPlease provide a clear, concise answer based only on the information given in the context. If the context doesn\x27t contain enough information to fully answer the question, acknowledge this in your response.\n\nGuidelines:\n1. Use only information from the provided context\n2. Be specific and direct in your answer\n3. If context is insufficient, say so\n4. Maintain accuracy and avoid speculation\n5. Use natural, conversational language"

/-- `RAGSystem.get_prompt`: joins the retrieved contents with newlines
and instantiates the template. -/
def getPrompt (userQuery : String) (relevantDocs : List Doc) : String :=
  ragPromptTemplate (String.intercalate "\n" (relevantDocs.map Doc.content)) userQuery

/-- Message of the `ValueError` raised (and then caught) by
`RAGSystem.query` when no index name is provided. -/
def noIndexMsg : String :=
  "No index name provided. Please select a video and ensure it has been processed."

/-- Canned reply of `RAGSystem.query` when the search finds no relevant
documents. -/
def noRelevantMsg : String :=
  "I couldn\x27t find any relevant information to answer your query."

/-- `RAGSystem.query` (rag.py lines 79-101).  `searchO q n m idx` is the
outcome of `data_processor.search(q, num_results=n, method=m,
index_name=idx)`; `chatO p` the outcome of the single `ollama.chat` call
on prompt `p`.  The whole body sits inside `try ... except Exception`,
so every failure — including the `ValueError` the function itself raises
for a falsy index name — is returned as the pair
`("An error occurred: " ++ message, "")`; the function never lets an
exception escape, which is why its return type is a plain pair. -/
def query (searchO : String → Nat → String → String → Except String (List Doc))
    (chatO : String → Except String String)
    (searchMethod : String) (userQuery : String) (indexName : Option String) :
    String × String :=
  match indexName with
  | none => ("An error occurred: " ++ noIndexMsg, "")
  | some idx =>
    if idx = "" then ("An error occurred: " ++ noIndexMsg, "")
    else
      match searchO userQuery 3 searchMethod idx with
      | Except.error e => ("An error occurred: " ++ e, "")
      | Except.ok relevantDocs =>
        match relevantDocs with
        | [] => (noRelevantMsg, "")
        | _ :: _ =>
          let prompt := getPrompt userQuery relevantDocs
          match chatO prompt with
          | Except.error e => ("An error occurred: " ++ e, "")
          | Except.ok answer => (answer, prompt)

/-- The chain-of-thought rewrite prompt of `RAGSystem.rewrite_cot`. -/
def cotPrompt (q : String) : String :=
  "Rewrite the following query using chain-of-thought reasoning:\n\nQuery: "
    ++ q ++ "\n\nRewritten query:"

/-- The ReAct rewrite prompt of `RAGSystem.rewrite_react`. -/
def reactPrompt (q : String) : String :=
  "Rewrite the following query using ReAct (Reasoning and Acting) approach:\n\nQuery: "
    ++ q ++ "\n\nRewritten query:"

/-- `RAGSystem.rewrite_cot` (rag.py lines 103-112): delegates to
`generate` and, via Python truthiness (`if response:`), returns the
original query when `generate` yielded `None` or an empty string.
`chatO p i` is the `ollama.chat` outcome on prompt `p`, attempt `i`. -/
def rewrite_cot (chatO : String → Nat → Except String String) (maxRetries : Nat)
    (q : String) : String × String :=
  let prompt := cotPrompt q
  match (generate (chatO prompt) maxRetries).result with
  | some response => if response = "" then (q, prompt) else (response, prompt)
  | none => (q, prompt)

/-- `RAGSystem.rewrite_react` (rag.py lines 114-123): same fallback
structure as `rewrite_cot` with the ReAct prompt. -/
def rewrite_react (chatO : String → Nat → Except String String) (maxRetries : Nat)
    (q : String) : String × String :=
  let prompt := reactPrompt q
  match (generate (chatO prompt) maxRetries).result with
  | some response => if response = "" then (q, prompt) else (response, prompt)
  | none => (q, prompt)

end RAGSystem

/-! ### query_rewriter.py — `QueryRewriter` -/

namespace QueryRewriter

/-- `QueryRewriter.generate` (query_rewriter.py lines 12-21): a single
`ollama.chat` call; any exception is caught and mapped to the string
`"Error: " ++ message`.  No exception escapes. -/
def generate (chatO : String → Except String String) (prompt : String) : String :=
  match chatO prompt with
  | Except.ok content => content
  | Except.error e => "Error: " ++ e

/-- The chain-of-thought prompt of `QueryRewriter.rewrite_cot`
(an indented f-string; indentation reproduced). -/
def cotPrompt (q : String) : String :=
  "\n        Rewrite the following query using Chain-of-Thought reasoning:\n        Query: "
    ++ q ++ "\n        \n        Rewritten query:\n        "

/-- The ReAct prompt of `QueryRewriter.rewrite_react`. -/
def reactPrompt (q : String) : String :=
  "\n        Rewrite the following query using the ReAct framework (Reasoning and Acting):\n        Query: "
    ++ q
    ++ "\n        \n        Thought 1:\n        Action 1:\n        Observation 1:\n        \n        Thought 2:\n        Action 2:\n        Observation 2:\n        \n        Final rewritten query:\n        "

/-- `QueryRewriter.rewrite_cot` (query_rewriter.py lines 23-34):
classifies failure purely by whether the response text starts with
`"Error:"`. -/
def rewrite_cot (chatO : String → Except String String) (q : String) :
    String × String :=
  let prompt := cotPrompt q
  let rewritten := generate chatO prompt
  if pyStartswith rewritten "Error:" then (q, prompt) else (rewritten, prompt)

/-- `QueryRewriter.rewrite_react` (query_rewriter.py lines 36-55): same
classification with the ReAct prompt. -/
def rewrite_react (chatO : String → Except String String) (q : String) :
    String × String :=
  let prompt := reactPrompt q
  let rewritten := generate chatO prompt
  if pyStartswith rewritten "Error:" then (q, prompt) else (rewritten, prompt)

end QueryRewriter

/-! ### main.py — persistence state and `process_single_video` -/

/-- Metadata of a fetched transcript (`transcript_data['metadata']`),
with `dict.get` defaults modelled by `Option`. -/
structure Metadata where
  title : Option String
  author : Option String
  uploadDate : Option String
  viewCount : Option Int
  likeCount : Option Int
  commentCount : Option Int
  duration : Option String

/-- Result of `get_transcript`: the transcript entries (text and start
time) plus metadata. -/
structure TranscriptData where
  transcript : List (String × Int)
  metadata : Metadata

/-- A row of the `videos` table, as inserted by `db_handler.add_video`
from the `video_data` dict built in `process_single_video`. -/
structure VideoRow where
  dbId : Nat
  videoId : String
  title : String
  author : String
  uploadDate : String
  viewCount : Int
  likeCount : Int
  commentCount : Int
  videoDuration : String
deriving DecidableEq

/-- Modelled from the spec: the persistence collaborator of §6
(`database.py` is not under src/).  Videos, embedding models and the
Elasticsearch-index registry, with append-only inserts. -/
structure DBState where
  videos : List VideoRow
  models : List (Nat × String)
  esIndexes : List (Nat × String × Nat)
deriving DecidableEq

namespace DBState

/-- Modelled from the spec: model-id lookup by name inside the
persistence layer. -/
def findModelId (db : DBState) (name : String) : Option Nat :=
  (db.models.find? (fun m => m.2 == name)).map (fun m => m.1)

/-- Modelled from the spec:
`db_handler.get_video_by_youtube_id(video_id)`. -/
def getVideoByYoutubeId (db : DBState) (youtubeId : String) : Option VideoRow :=
  db.videos.find? (fun v => v.videoId == youtubeId)

/-- Modelled from the spec:
`db_handler.get_elasticsearch_index_by_youtube_id(video_id,
embedding_model) -> index_name | null`: resolves the video row and the
model id, then looks up the registry record for the pair. -/
def getElasticsearchIndexByYoutubeId (db : DBState) (youtubeId modelName : String) :
    Option String :=
  match db.getVideoByYoutubeId youtubeId, db.findModelId modelName with
  | some v, some mid =>
      (db.esIndexes.find? (fun r => r.1 == v.dbId && r.2.2 == mid)).map (fun r => r.2.1)
  | _, _ => none

/-- Modelled from the spec: `db_handler.add_video(video_data)` inserts
one row with a fresh id. -/
def addVideo (db : DBState) (row : Nat → VideoRow) : DBState :=
  { db with videos := db.videos ++ [row (db.videos.length + 1)] }

/-- Modelled from the spec: `db_handler.add_embedding_model(name,
description) -> model_id`, returning the existing id when the model is
already registered. -/
def addEmbeddingModel (db : DBState) (name : String) : Nat × DBState :=
  match db.findModelId name with
  | some mid => (mid, db)
  | none =>
      let mid := db.models.length + 1
      (mid, { db with models := db.models ++ [(mid, name)] })

/-- Modelled from the spec:
`db_handler.add_elasticsearch_index(video_db_id, index_name,
embedding_model_id)` appends one registry record. -/
def addElasticsearchIndex (db : DBState) (videoDbId : Nat) (indexName : String)
    (modelId : Nat) : DBState :=
  { db with esIndexes := db.esIndexes ++ [(videoDbId, indexName, modelId)] }

end DBState

/-- Side effects performed by one `process_single_video` call: how often
the transcript was fetched, how often an index build was attempted, and
how many registry records were added. -/
structure Effects where
  transcriptFetches : Nat
  indexBuilds : Nat
  registryAdds : Nat
deriving DecidableEq

/-- Python `str.lower()` as used for the index name (ASCII case map on
the character sequence). -/
def pyLower (s : String) : String :=
  ⟨s.data.map Char.toLower⟩

/-- The `video_data` dict of main.py lines 211-220, as a `VideoRow`
builder (the db id is assigned by the insert). -/
def videoRowOf (videoId : String) (md : Metadata) (dbId : Nat) : VideoRow :=
  { dbId := dbId
    videoId := videoId
    title := md.title.getD "Unknown Title"
    author := md.author.getD "Unknown Author"
    uploadDate := md.uploadDate.getD "Unknown Date"
    viewCount := md.viewCount.getD 0
    likeCount := md.likeCount.getD 0
    commentCount := md.commentCount.getD 0
    videoDuration := md.duration.getD "Unknown Duration" }

/-- The rebuild path of `process_single_video` (main.py lines 205-257),
taken when the registry lookup came back Python-falsy.  Oracles:
`getTranscriptO` is `get_transcript`; `addVideoOk` whether
`db_handler.add_video` succeeds; `processTranscriptO` the outcome of
`data_processor.process_transcript`; `buildIndexO name` the outcome (and
returned name) of `data_processor.build_index(name)`. -/
def process_single_video_fresh
    (getTranscriptO : String → Option TranscriptData)
    (addVideoOk : Bool)
    (processTranscriptO : Except String Unit)
    (buildIndexO : String → Except String String)
    (db : DBState) (videoId embeddingModel : String) :
    Option String × DBState × Effects :=
  match getTranscriptO videoId with
  | none => (none, db, ⟨1, 0, 0⟩)
  | some td =>
    if !addVideoOk then (none, db, ⟨1, 0, 0⟩)
    else
      let db1 := db.addVideo (videoRowOf videoId td.metadata)
      match processTranscriptO with
      | Except.error _ => (none, db1, ⟨1, 0, 0⟩)
      | Except.ok _ =>
        let indexName0 := pyLower ("video_" ++ videoId ++ "_" ++ embeddingModel)
        match buildIndexO indexName0 with
        | Except.error _ => (none, db1, ⟨1, 1, 0⟩)
        | Except.ok indexName =>
          let mdb := db1.addEmbeddingModel embeddingModel
          match mdb.2.getVideoByYoutubeId videoId with
          | none => (none, mdb.2, ⟨1, 1, 0⟩)
          | some row =>
            (some indexName,
             mdb.2.addElasticsearchIndex row.dbId indexName mdb.1,
             ⟨1, 1, 1⟩)

/-- `process_single_video(video_id, embedding_model)` (main.py lines
197-257).  The existing-index early return follows Python truthiness
(`if existing_index:`, main.py line 201): a registry answer of `None`
— or of an empty index name, which is falsy — falls through to the
rebuild path.  Returns the index name (or `None`), the resulting
persistence state and the side effects performed. -/
def process_single_video
    (getTranscriptO : String → Option TranscriptData)
    (addVideoOk : Bool)
    (processTranscriptO : Except String Unit)
    (buildIndexO : String → Except String String)
    (db : DBState) (videoId embeddingModel : String) :
    Option String × DBState × Effects :=
  match db.getElasticsearchIndexByYoutubeId videoId embeddingModel with
  | some existingIndex =>
      if existingIndex = "" then
        process_single_video_fresh getTranscriptO addVideoOk processTranscriptO
          buildIndexO db videoId embeddingModel
      else (some existingIndex, db, ⟨0, 0, 0⟩)
  | none =>
      process_single_video_fresh getTranscriptO addVideoOk processTranscriptO
        buildIndexO db videoId embeddingModel

/-! ### main.py — sampling and the evaluation run -/

/-- A ground-truth row of `data/ground-truth-retrieval.csv`:
`(video_id, question)`. -/
abbrev GTItem := String × String

/-- A linear congruential pseudo-random step (glibc constants). -/
def lcgNext (s : Nat) : Nat := (1103515245 * s + 12345) % 2 ^ 31

/-- One-by-one selection without replacement: draw the element at a
pseudo-random position, remove it, recurse on the rest. -/
def sampleGo {α : Type} : Nat → Nat → List α → List α
  | _, 0, _ => []
  | _, _ + 1, [] => []
  | seed, n + 1, x :: xs =>
      let s := lcgNext seed
      let i := s % (x :: xs).length
      (x :: xs).getD i x :: sampleGo s n ((x :: xs).eraseIdx i)

/-- Modelled from the documented contract of
`pandas.DataFrame.sample(n=n, random_state=seed)` (an external library):
a deterministic pseudo-random sample of `n` rows drawn without
replacement; the concrete generator is modelled by an LCG. -/
def pandasSample {α : Type} (l : List α) (n : Nat) (seed : Nat) : List α :=
  sampleGo seed n l

/-- The sample drawn by `evaluate_rag` (main.py line 114):
`ground_truth.sample(n=min(sample_size, len(ground_truth)),
random_state=1)`.  The seed is the literal `1`, so the selection is a
function of the ground-truth set and the requested size alone. -/
def evalSample (groundTruth : List GTItem) (sampleSize : Nat) : List GTItem :=
  pandasSample groundTruth (min sampleSize groundTruth.length) 1

/-- The stripped judge prompt template of `evaluate_rag` (main.py lines
117-135) with `{question}` and `{answer_llm}` substituted; literal
braces of the requested JSON shape written as escapes. -/
def judgePrompt (question answerLlm : String) : String :=
  "You are an expert evaluator for a Youtube transcript assistant.\n    Your task is to analyze the relevance of the generated answer to the given question.\n    Based on the relevance of the generated answer, you will classify it\n    as \"NON_RELEVANT\", \"PARTLY_RELEVANT\", or \"RELEVANT\".\n\n    Here is the data for evaluation:\n\n    Question: "
    ++ question
    ++ "\n    Generated Answer: "
    ++ answerLlm
    ++ "\n\n    Please analyze the content and context of the generated answer in relation to the question\n    and provide your evaluation in parsable JSON without using code blocks:\n\n    \x7b\n      \"Relevance\": \"NON_RELEVANT\" | \"PARTLY_RELEVANT\" | \"RELEVANT\",\n      \"Explanation\": \"[Provide a brief explanation for your evaluation]\"\n    \x7d"

/-- One row appended to `rag_evaluations` (and returned) by
`evaluate_rag`. -/
structure EvalRecord where
  videoId : String
  question : String
  answer : String
  relevance : String
  explanation : String
deriving DecidableEq

/-- The three relevance labels named by the judge prompt and the spec. -/
def relevanceStrings : List String :=
  ["NON_RELEVANT", "PARTLY_RELEVANT", "RELEVANT"]

/-- Collaborator oracles of one `evaluate_rag` run.  `indexFor v` is
`db_handler.get_elasticsearch_index_by_youtube_id(v, "all-MiniLM-L6-v2")`;
`searchO`/`chatO` feed the inner `rag_system.query` call; `judgeO p` is
the judge `ollama.chat` call on prompt `p` composed with `json.loads`
(an exception of either step is one `Except.error`, since both sit in
the same `try`). -/
structure EvalOracles where
  indexFor : String → Option String
  searchO : String → Nat → String → String → Except String (List RAGSystem.Doc)
  chatO : String → Except String String
  judgeO : String → Except String Json

/-- Processing of one sampled ground-truth row by `evaluate_rag` (main.py
lines 138-172): skip (`none`) when the video has no index (Python
truthiness: `None` or an empty name), when the judge call or its JSON
parse raises, or when `.get` is applied to a non-dict judge value
(`AttributeError`, caught by the same `except`); otherwise the appended
record, whose relevance defaults to `"UNKNOWN"` and whose explanation
defaults to `"No explanation provided"`.  The inner `rag_system.query`
never raises (its `except ValueError` guard is dead code), so a query
failure still produces an answer string. -/
def evalItem (o : EvalOracles) (item : GTItem) : Option EvalRecord :=
  match o.indexFor item.1 with
  | none => none
  | some indexName =>
    if indexName = "" then none
    else
      let qr := RAGSystem.query o.searchO o.chatO "hybrid" item.2 (some indexName)
      match o.judgeO (judgePrompt item.2 qr.1) with
      | Except.error _ => none
      | Except.ok j =>
        match j with
        | Json.obj fields =>
            some { videoId := item.1
                   question := item.2
                   answer := qr.1
                   relevance :=
                     match jsonLookup fields "Relevance" with
                     | some v => pyStr v
                     | none => "UNKNOWN"
                   explanation :=
                     match jsonLookup fields "Explanation" with
                     | some v => pyStr v
                     | none => "No explanation provided" }
        | _ => none

/-- `evaluate_rag(sample_size)` (main.py lines 106-195) given a loaded
ground-truth set: iterates over the fixed-seed sample, skips failing
items, and returns (and persists) exactly the records of the items that
succeeded.  No per-item failure aborts the run; the function body has no
exceptional exit. -/
def evaluate_rag (o : EvalOracles) (groundTruth : List GTItem) (sampleSize : Nat) :
    List EvalRecord :=
  (evalSample groundTruth sampleSize).filterMap (evalItem o)

/-! ### main.py — ground-truth generation -/

/-- The stripped question-generation prompt of `generate_questions`
(main.py lines 46-60) with `{transcript}` substituted; the literal JSON
shape braces written as escapes. -/
def questionsPrompt (transcript : String) : String :=
  "You are an AI assistant tasked with generating questions based on a YouTube video transcript.\n    Formulate atleast 10 questions that a user might ask based on the provided transcript.\n    Make the questions specific to the content of the transcript.\n    The questions should be complete and not too short. Use as few words as possible from the transcript.\n    It is important that the questions are relevant to the content of the transcript and are atleast 10 in number.\n\n    The transcript:\n\n    "
    ++ transcript
    ++ "\n\n    Provide the output in parsable JSON without using code blocks:\n\n    \x7b\"questions\": [\"question1\", \"question2\", ..., \"question10\"]\x7d"

/-- `generate_questions(transcript)` (main.py lines 45-73): one
`ollama.chat` call followed by `json.loads`, with every exception caught
and mapped to `None`.  `chatO p` is the chat outcome on prompt `p`;
`loads s` models `json.loads(s)` (an external library), `Except.error`
being its `JSONDecodeError`. -/
def generate_questions (chatO : String → Except String String)
    (loads : String → Except String Json) (transcript : String) : Option Json :=
  match chatO (questionsPrompt transcript) with
  | Except.error _ => none
  | Except.ok content =>
    match loads content with
    | Except.error _ => none
    | Except.ok j => some j

/-- The `video_id if video_id else "custom"` label of main.py line 94
(Python truthiness: `None` and `""` are falsy). -/
def pyVideoLabel : Option String → String
  | some v => if v = "" then "custom" else v
  | none => "custom"

/-- The question-generation path of `generate_ground_truth` (main.py
lines 91-103), given the resolved full transcript (the transcript
resolution of lines 76-89 only selects this argument).  The outer
`Except` is an escaping Python exception: the guard
`if questions and 'questions' in questions:` and the subsequent
subscript and iteration can raise `TypeError` on non-dict JSON, and
nothing catches that here.  The normal outcomes are `ok (some rows)` —
one row per entry of the `questions` field — or `ok none` (an error
message is shown and `None` returned; no `GroundTruthParseError` type
exists in the program). -/
def generate_ground_truth (chatO : String → Except String String)
    (loads : String → Except String Json) (videoId : Option String)
    (fullTranscript : String) : Except String (Option (List (String × Json))) :=
  match generate_questions chatO loads fullTranscript with
  | none => Except.ok none
  | some j =>
    if pyTruthy j then
      match pyContainsStr j "questions" with
      | Except.error e => Except.error e
      | Except.ok false => Except.ok none
      | Except.ok true =>
        match pyGetItemStr j "questions" with
        | Except.error e => Except.error e
        | Except.ok qv =>
          match pyIter qv with
          | Except.error e => Except.error e
          | Except.ok qs =>
              Except.ok (some (qs.map (fun q => (pyVideoLabel videoId, q))))
    else Except.ok none

/-! ### Lemmas about the retry loop -/

/-- The backoff delays slept before reaching attempt `k`:
`1, 2, 4, ...` time units, doubling. -/
def backoffSleeps (k : Nat) : List Nat :=
  (List.range k).map (fun i => 2 ^ i)

theorem generateGo_succeeds (oracle : Nat → Except String String) :
    ∀ remaining attempt k t, attempt ≤ k → k < attempt + remaining →
      (∀ i, attempt ≤ i → i < k → ∃ e, oracle i = Except.error e) →
      oracle k = Except.ok t →
      RAGSystem.generateGo oracle attempt remaining =
        ⟨some t, (List.range' attempt (k - attempt)).map (fun i => 2 ^ i),
          k - attempt + 1⟩ := by
  intro remaining
  induction remaining with
  | zero => intro attempt k t h1 h2 _ _; omega
  | succ n ih =>
    intro attempt k t h1 h2 herr hok
    rcases Nat.eq_or_lt_of_le h1 with heq | hlt
    · subst heq
      simp only [RAGSystem.generateGo, hok, Nat.sub_self, List.range'_zero,
        List.map_nil]
    · obtain ⟨e, he⟩ := herr attempt (Nat.le_refl _) hlt
      have hn : n ≠ 0 := by omega
      have hrec := ih (attempt + 1) k t (by omega) (by omega)
        (fun i hi1 hi2 => herr i (by omega) hi2) hok
      simp only [RAGSystem.generateGo, he, if_neg hn, hrec]
      have hk : k - attempt = (k - (attempt + 1)) + 1 := by omega
      rw [hk, List.range'_succ, List.map_cons]

theorem generateGo_all_fail (oracle : Nat → Except String String) :
    ∀ remaining attempt, 0 < remaining →
      (∀ i, attempt ≤ i → i < attempt + remaining → ∃ e, oracle i = Except.error e) →
      RAGSystem.generateGo oracle attempt remaining =
        ⟨none, (List.range' attempt (remaining - 1)).map (fun i => 2 ^ i),
          remaining⟩ := by
  intro remaining
  induction remaining with
  | zero => intro attempt h _; omega
  | succ n ih =>
    intro attempt _ herr
    obtain ⟨e, he⟩ := herr attempt (Nat.le_refl _) (by omega)
    by_cases hn : n = 0
    · subst hn
      simp [RAGSystem.generateGo, he]
    · have hrec := ih (attempt + 1) (by omega)
        (fun i hi1 hi2 => herr i (by omega) (by omega))
      simp only [RAGSystem.generateGo, he, if_neg hn, hrec]
      have hk : n + 1 - 1 = (n - 1) + 1 := by omega
      rw [hk, List.range'_succ, List.map_cons]

theorem generateGo_result_none_of_all_fail (oracle : Nat → Except String String)
    (h : ∀ i, ∃ e, oracle i = Except.error e) :
    ∀ remaining attempt, (RAGSystem.generateGo oracle attempt remaining).result = none := by
  intro remaining
  induction remaining with
  | zero => intro attempt; rfl
  | succ n ih =>
    intro attempt
    obtain ⟨e, he⟩ := h attempt
    by_cases hn : n = 0
    · subst hn; simp [RAGSystem.generateGo, he]
    · simp [RAGSystem.generateGo, he, if_neg hn, ih]

/-! ### C1 — retry/backoff behaviour of the Generator -/

/-- An ollama oracle whose every call raises. -/
def alwaysFailOracle : Nat → Except String String :=
  fun _ => Except.error "connection refused"

/-- C1, counterexample: with the default `max_retries = 3` and a chat
call that raises on every attempt, `RAGSystem.generate` returns the
Python `None` normally after 3 attempts and backoff sleeps 1, 2 — no
exception escapes and no `GenerationError` type exists in the program,
refuting the claim that exhaustion fails with `GenerationError`. -/
theorem C1_no_exception_on_exhaustion :
    RAGSystem.generate alwaysFailOracle 3 =
      { result := none, sleeps := [1, 2], attempts := 3 } := by rfl

/-- C1 (amended): for every prompt, `generate` makes at most
`max_retries` attempts, sleeping 1, 2, 4, ... time units (doubling)
between consecutive failed attempts; if some attempt `k < max_retries`
succeeds it returns that attempt's text after `k + 1` attempts, and if
every attempt fails it returns `None` (a normal return, not a
`GenerationError`) after exactly `max_retries` attempts. -/
theorem C1_generate_retry_behaviour (oracle : Nat → Except String String)
    (maxRetries : Nat) (hpos : 0 < maxRetries) :
    (∀ k t, k < maxRetries →
        (∀ i, i < k → ∃ e, oracle i = Except.error e) →
        oracle k = Except.ok t →
        RAGSystem.generate oracle maxRetries =
          { result := some t, sleeps := backoffSleeps k, attempts := k + 1 }) ∧
    ((∀ i, i < maxRetries → ∃ e, oracle i = Except.error e) →
        RAGSystem.generate oracle maxRetries =
          { result := none, sleeps := backoffSleeps (maxRetries - 1),
            attempts := maxRetries }) := by
  constructor
  · intro k t hk herr hok
    have h := generateGo_succeeds oracle maxRetries 0 k t (Nat.zero_le _) (by omega)
      (fun i _ hi => herr i hi) hok
    simpa [RAGSystem.generate, backoffSleeps, List.range_eq_range'] using h
  · intro herr
    have h := generateGo_all_fail oracle maxRetries 0 hpos
      (fun i _ hi => herr i (by omega))
    simpa [RAGSystem.generate, backoffSleeps, List.range_eq_range'] using h

/-- A concrete oracle that fails on attempt 0 and succeeds afterwards. -/
def retryWitnessOracle : Nat → Except String String :=
  fun i => if i = 0 then Except.error "timeout" else Except.ok "hello"

/-- C1, witness: one failure then a success at attempt 1 within the
default 3 retries returns that attempt's text after one backoff sleep. -/
theorem C1_generate_retry_witness :
    RAGSystem.generate retryWitnessOracle 3 =
      { result := some "hello", sleeps := backoffSleeps 1, attempts := 2 } :=
  (C1_generate_retry_behaviour retryWitnessOracle 3 (by decide)).1 1 "hello"
    (by decide)
    (fun i hi => ⟨"timeout", by
      have hz : i = 0 := by omega
      subst hz; rfl⟩)
    (by rfl)

/-! ### C2 — idempotent indexing -/

/-- C2: if the registry already holds an index for the (video,
embedding-model) pair — a truthy handle, i.e. with the non-empty name
every index registered by the program has — `process_single_video`
returns that existing handle with the persistence state unchanged and
performs no transcript fetch, no index construction and no new registry
record. -/
theorem C2_index_idempotent
    (getTranscriptO : String → Option TranscriptData) (addVideoOk : Bool)
    (processTranscriptO : Except String Unit)
    (buildIndexO : String → Except String String)
    (db : DBState) (videoId embeddingModel idx : String)
    (h : db.getElasticsearchIndexByYoutubeId videoId embeddingModel = some idx)
    (hne : idx ≠ "") :
    process_single_video getTranscriptO addVideoOk processTranscriptO buildIndexO
        db videoId embeddingModel =
      (some idx, db,
        { transcriptFetches := 0, indexBuilds := 0, registryAdds := 0 }) := by
  simp [process_single_video, h, hne]

/-- A transcript oracle returning one fixed transcript. -/
def fetchWitness : String → Option TranscriptData :=
  fun _ => some { transcript := [("hello world", 0)]
                  metadata := ⟨none, none, none, none, none, none, none⟩ }

/-- An index builder that succeeds with the requested name. -/
def buildWitness : String → Except String String := fun n => Except.ok n

/-- The persistence state after one successful fresh
`process_single_video` run for video "AbC". -/
def dbAfterFirstRun : DBState :=
  (process_single_video fetchWitness true (Except.ok ()) buildWitness
    { videos := [], models := [], esIndexes := [] } "AbC" "all-MiniLM-L6-v2").2.1

/-- C2, witness: a second call for the same (video, embedding-model)
pair returns the index built by the first call, unchanged state, zero
effects. -/
theorem C2_index_idempotent_witness :
    process_single_video fetchWitness true (Except.ok ()) buildWitness
        dbAfterFirstRun "AbC" "all-MiniLM-L6-v2" =
      (some "video_abc_all-minilm-l6-v2", dbAfterFirstRun,
        { transcriptFetches := 0, indexBuilds := 0, registryAdds := 0 }) :=
  C2_index_idempotent fetchWitness true (Except.ok ()) buildWitness
    dbAfterFirstRun "AbC" "all-MiniLM-L6-v2" "video_abc_all-minilm-l6-v2"
    (by decide) (by decide)

/-! ### C3 and C9 — failure behaviour of `RAGSystem.query` -/

/-- A search oracle that succeeds with zero passages. -/
def emptySearchO : String → Nat → String → String → Except String (List RAGSystem.Doc) :=
  fun _ _ _ _ => Except.ok []

/-- A chat oracle that answers with a fixed string. -/
def echoChatO : String → Except String String := fun _ => Except.ok "answer"

/-- C3, counterexample: querying with no index selected returns normally
with an error-message pair — `query` catches the `ValueError` it itself
raised, so the caller sees no `IndexNotFoundError` (no such type exists
in the program), refuting the claim as stated. -/
theorem C3_no_index_returns_message :
    RAGSystem.query emptySearchO echoChatO "hybrid" "what?" none =
      ("An error occurred: " ++ RAGSystem.noIndexMsg, "") := by rfl

/-- C3 (amended): a missing index handle makes `query` return the fixed
missing-index error pair ("An error occurred: ..." with an empty prompt)
rather than raising an `IndexNotFoundError`; a search that succeeds with
zero passages returns the distinct canned-message pair — a valid
non-error outcome distinguishable from the missing-index result, though
only by message content. -/
theorem C3_missing_index_amended
    (searchO : String → Nat → String → String → Except String (List RAGSystem.Doc))
    (chatO : String → Except String String)
    (method userQuery : String) (indexName : Option String) :
    (indexName = none ∨ indexName = some "" →
      RAGSystem.query searchO chatO method userQuery indexName =
        ("An error occurred: " ++ RAGSystem.noIndexMsg, "")) ∧
    (∀ idx, indexName = some idx → idx ≠ "" →
      searchO userQuery 3 method idx = Except.ok [] →
      RAGSystem.query searchO chatO method userQuery indexName =
        (RAGSystem.noRelevantMsg, "")) ∧
    ("An error occurred: " ++ RAGSystem.noIndexMsg, ("" : String)) ≠
      (RAGSystem.noRelevantMsg, ("" : String)) := by
  refine ⟨?_, ?_, by decide⟩
  · rintro (rfl | rfl)
    · rfl
    · rfl
  · rintro idx rfl hne hs
    simp [RAGSystem.query, hne, hs]

/-- C3, witness: a successful search with zero passages yields the
canned no-information reply with an empty prompt. -/
theorem C3_missing_index_witness :
    RAGSystem.query emptySearchO echoChatO "hybrid" "q" (some "idx") =
      (RAGSystem.noRelevantMsg, "") :=
  (C3_missing_index_amended emptySearchO echoChatO "hybrid" "q" (some "idx")).2.1
    "idx" rfl (by decide) rfl

/-- C9: `RAGSystem.query` never raises — its whole body is guarded by
`except Exception`, which is why the embedding's return type is a plain
pair — and every failure (missing index name, search error, chat error)
is returned as an error-message string with an empty prompt, while the
zero-passages case is the fixed canned message with an empty prompt. -/
theorem C9_query_total
    (searchO : String → Nat → String → String → Except String (List RAGSystem.Doc))
    (chatO : String → Except String String)
    (method userQuery : String) (indexName : Option String) :
    (indexName = none ∨ indexName = some "" →
      RAGSystem.query searchO chatO method userQuery indexName =
        ("An error occurred: " ++ RAGSystem.noIndexMsg, "")) ∧
    (∀ idx e, indexName = some idx → idx ≠ "" →
      searchO userQuery 3 method idx = Except.error e →
      RAGSystem.query searchO chatO method userQuery indexName =
        ("An error occurred: " ++ e, "")) ∧
    (∀ idx, indexName = some idx → idx ≠ "" →
      searchO userQuery 3 method idx = Except.ok [] →
      RAGSystem.query searchO chatO method userQuery indexName =
        (RAGSystem.noRelevantMsg, "")) ∧
    (∀ idx docs e, indexName = some idx → idx ≠ "" →
      searchO userQuery 3 method idx = Except.ok docs → docs ≠ [] →
      chatO (RAGSystem.getPrompt userQuery docs) = Except.error e →
      RAGSystem.query searchO chatO method userQuery indexName =
        ("An error occurred: " ++ e, "")) := by
  refine ⟨?_, ?_, ?_, ?_⟩
  · rintro (rfl | rfl) <;> rfl
  · rintro idx e rfl hne hs
    simp [RAGSystem.query, hne, hs]
  · rintro idx rfl hne hs
    simp [RAGSystem.query, hne, hs]
  · rintro idx docs e rfl hne hs hd hc
    cases docs with
    | nil => exact absurd rfl hd
    | cons d ds => simp [RAGSystem.query, hne, hs, hc]

/-- A search oracle that raises. -/
def raisingSearchO : String → Nat → String → String → Except String (List RAGSystem.Doc) :=
  fun _ _ _ _ => Except.error "search exploded"

/-- C9, witness: a raising search is returned as an error-message pair. -/
theorem C9_query_total_witness :
    RAGSystem.query raisingSearchO echoChatO "hybrid" "q" (some "vidx") =
      ("An error occurred: " ++ "search exploded", "") :=
  (C9_query_total raisingSearchO echoChatO "hybrid" "q" (some "vidx")).2.1
    "vidx" "search exploded" rfl (by decide) rfl

/-! ### C4 and C10 — query-rewriting fallback -/

theorem isPrefixOf_append_self (p t : List Char) : p.isPrefixOf (p ++ t) = true := by
  induction p with
  | nil => simp [List.isPrefixOf]
  | cons c cs ih => simp [List.isPrefixOf, ih]

theorem pyStartswith_error_append (e : String) :
    pyStartswith ("Error: " ++ e) "Error:" = true := by
  have hsplit : ("Error: " : String).data = ("Error:" : String).data ++ [' '] := by
    decide
  simp only [pyStartswith, String.data_append, hsplit, List.append_assoc]
  exact isPrefixOf_append_self _ _

theorem qr_generate_error (chatO : String → Except String String) (p e : String)
    (he : chatO p = Except.error e) :
    QueryRewriter.generate chatO p = "Error: " ++ e := by
  simp [QueryRewriter.generate, he]

/-- C4: for every query text and both strategies — in both
implementations, `RAGSystem.rewrite_cot`/`rewrite_react` (which fall
back when `generate` returns `None`) and
`QueryRewriter.rewrite_cot`/`rewrite_react` (which fall back on the
`"Error:"` sentinel) — if the underlying generation fails, the rewrite
returns the original query unchanged paired with the attempted prompt.
Neither rewriter can raise: every chat exception is caught inside the
respective `generate`, which the embedding reflects by returning plain
pairs. -/
theorem C4_rewrite_fallback
    (chatO1 : String → Nat → Except String String)
    (chatO2 : String → Except String String) (maxRetries : Nat) (q : String)
    (h1 : ∀ p i, ∃ e, chatO1 p i = Except.error e)
    (h2 : ∀ p, ∃ e, chatO2 p = Except.error e) :
    RAGSystem.rewrite_cot chatO1 maxRetries q = (q, RAGSystem.cotPrompt q) ∧
    RAGSystem.rewrite_react chatO1 maxRetries q = (q, RAGSystem.reactPrompt q) ∧
    QueryRewriter.rewrite_cot chatO2 q = (q, QueryRewriter.cotPrompt q) ∧
    QueryRewriter.rewrite_react chatO2 q = (q, QueryRewriter.reactPrompt q) := by
  have hg1 : ∀ p, (RAGSystem.generate (chatO1 p) maxRetries).result = none :=
    fun p => generateGo_result_none_of_all_fail (chatO1 p) (h1 p) maxRetries 0
  refine ⟨?_, ?_, ?_, ?_⟩
  · simp [RAGSystem.rewrite_cot, hg1]
  · simp [RAGSystem.rewrite_react, hg1]
  · obtain ⟨e, he⟩ := h2 (QueryRewriter.cotPrompt q)
    simp [QueryRewriter.rewrite_cot, qr_generate_error chatO2 _ e he,
      pyStartswith_error_append]
  · obtain ⟨e, he⟩ := h2 (QueryRewriter.reactPrompt q)
    simp [QueryRewriter.rewrite_react, qr_generate_error chatO2 _ e he,
      pyStartswith_error_append]

/-- A chat oracle failing on every attempt (two-argument form). -/
def failingChatAttempts : String → Nat → Except String String :=
  fun _ _ => Except.error "service down"

/-- A chat oracle failing on every call. -/
def failingChat : String → Except String String :=
  fun _ => Except.error "service down"

/-- C4, witness: with a failing generator, the chain-of-thought rewriter
returns the original query and the attempted prompt. -/
theorem C4_rewrite_fallback_witness :
    QueryRewriter.rewrite_cot failingChat "how do bees dance" =
      ("how do bees dance", QueryRewriter.cotPrompt "how do bees dance") :=
  (C4_rewrite_fallback failingChatAttempts failingChat 3 "how do bees dance"
    (fun _ _ => ⟨"service down", rfl⟩) (fun _ => ⟨"service down", rfl⟩)).2.2.1

/-- C10: `QueryRewriter` classifies rewriting success purely by the
response text: `generate` maps any exception to `"Error: " ++ message`,
and both rewriters return the original query exactly when the produced
text starts with `"Error:"` — so a successful completion that happens to
begin with `"Error:"` is discarded and the original query returned as if
rewriting had failed. -/
theorem C10_error_string_conflation (chatO : String → Except String String)
    (q : String) :
    (∀ p e, chatO p = Except.error e →
      QueryRewriter.generate chatO p = "Error: " ++ e) ∧
    (∀ t, chatO (QueryRewriter.cotPrompt q) = Except.ok t →
      QueryRewriter.rewrite_cot chatO q =
        (if pyStartswith t "Error:" then q else t, QueryRewriter.cotPrompt q)) ∧
    (∀ t, chatO (QueryRewriter.reactPrompt q) = Except.ok t →
      QueryRewriter.rewrite_react chatO q =
        (if pyStartswith t "Error:" then q else t, QueryRewriter.reactPrompt q)) := by
  refine ⟨fun p e he => qr_generate_error chatO p e he, ?_, ?_⟩
  · intro t ht
    simp only [QueryRewriter.rewrite_cot, QueryRewriter.generate, ht]
    by_cases h : pyStartswith t "Error:" = true <;> simp [h]
  · intro t ht
    simp only [QueryRewriter.rewrite_react, QueryRewriter.generate, ht]
    by_cases h : pyStartswith t "Error:" = true <;> simp [h]

/-- A chat oracle that succeeds with a reply that merely begins with
`"Error:"`. -/
def spuriousErrorChat : String → Except String String :=
  fun _ => Except.ok "Error: the transcript does not say"

/-- C10, witness: that successful completion is discarded and the
original query returned. -/
theorem C10_error_string_witness :
    QueryRewriter.rewrite_cot spuriousErrorChat "q" =
      ("q", QueryRewriter.cotPrompt "q") := by
  have h := (C10_error_string_conflation spuriousErrorChat "q").2.1
    "Error: the transcript does not say" rfl
  rw [h]
  decide

/-! ### C5 — sampling: size, no replacement, fixed seed -/

theorem sampleGo_length {α : Type} :
    ∀ (n seed : Nat) (l : List α), (sampleGo seed n l).length = min n l.length := by
  intro n
  induction n with
  | zero => intro seed l; simp [sampleGo]
  | succ m ih =>
    intro seed l
    cases l with
    | nil => simp [sampleGo]
    | cons x xs =>
      have hlt : lcgNext seed % (x :: xs).length < (x :: xs).length :=
        Nat.mod_lt _ (by simp)
      simp only [sampleGo, ih, List.length_cons]
      rw [List.length_eraseIdx_of_lt (by simpa using hlt)]
      simp only [List.length_cons]
      omega

theorem getD_cons_eraseIdx_perm {α : Type} (x : α) :
    ∀ (l : List α) (i : Nat), i < l.length →
      List.Perm (l.getD i x :: l.eraseIdx i) l := by
  intro l
  induction l with
  | nil => intro i hi; simp at hi
  | cons a t ih =>
    intro i hi
    cases i with
    | zero => simp
    | succ j =>
      have hj : j < t.length := by simpa using hi
      simp only [List.getD_cons_succ, List.eraseIdx_cons_succ]
      exact (List.Perm.swap a (t.getD j x) (t.eraseIdx j)).trans ((ih j hj).cons a)

theorem sampleGo_subperm {α : Type} :
    ∀ (n seed : Nat) (l : List α), List.Subperm (sampleGo seed n l) l := by
  intro n
  induction n with
  | zero => intro seed l; exact List.nil_subperm
  | succ m ih =>
    intro seed l
    cases l with
    | nil => exact List.nil_subperm
    | cons x xs =>
      have hlt : lcgNext seed % (x :: xs).length < (x :: xs).length :=
        Nat.mod_lt _ (by simp)
      simp only [sampleGo]
      exact ((List.subperm_cons _).mpr (ih _ _)).trans
        (getD_cons_eraseIdx_perm x _ _ hlt).subperm

/-- C5: the evaluation run draws its sample without replacement (the
sample is a sub-permutation of the ground-truth set and preserves
distinctness) of size exactly `min(sample_size, |ground truth|)`; the
random seed is the literal `random_state=1` baked into `evalSample`, so
the selection is a function of the ground-truth set and the requested
size alone — two runs over the same set with the same size select the
same items. -/
theorem C5_sampling (groundTruth : List GTItem) (sampleSize : Nat) :
    (evalSample groundTruth sampleSize).length = min sampleSize groundTruth.length ∧
    List.Subperm (evalSample groundTruth sampleSize) groundTruth ∧
    (groundTruth.Nodup → (evalSample groundTruth sampleSize).Nodup) := by
  refine ⟨?_, sampleGo_subperm _ _ _, ?_⟩
  · rw [evalSample, pandasSample, sampleGo_length]
    omega
  · intro hnd
    obtain ⟨l', hperm, hsub⟩ := sampleGo_subperm
      (min sampleSize groundTruth.length) 1 groundTruth
    exact hperm.nodup_iff.mp (hnd.sublist hsub)

/-- A concrete three-item ground-truth set. -/
def gtWitness : List GTItem := [("vidA", "qA"), ("vidB", "qB"), ("vidC", "qC")]

/-- C5, witness: the sample of size 2 from a distinct three-item set has
length 2 and no duplicates. -/
theorem C5_sampling_witness :
    (evalSample gtWitness 2).length = min 2 gtWitness.length ∧
    (evalSample gtWitness 2).Nodup :=
  ⟨(C5_sampling gtWitness 2).1, (C5_sampling gtWitness 2).2.2 (by decide)⟩

/-! ### C6 — evaluation skip semantics -/

/-- Python truthiness of the looked-up index name in `evaluate_rag`
(`if not index_name: continue`). -/
def indexPresent : Option String → Bool
  | none => false
  | some s => !(s == "")

theorem evalItem_none_of_no_index (o : EvalOracles) (item : GTItem)
    (h : indexPresent (o.indexFor item.1) = false) : evalItem o item = none := by
  unfold evalItem
  cases hx : o.indexFor item.1 with
  | none => rfl
  | some s =>
    rw [hx] at h
    have hs : s = "" := by simpa [indexPresent] using h
    simp [hs]

theorem length_filterMap_eq_countP {α β : Type} (f : α → Option β) (l : List α) :
    (l.filterMap f).length = l.countP (fun a => (f a).isSome) := by
  induction l with
  | nil => rfl
  | cons a t ih =>
    cases h : f a <;> simp [List.filterMap_cons, h, List.countP_cons, ih]

theorem countP_bool_split {α : Type} (p : α → Bool) (l : List α) :
    l.countP p + l.countP (fun a => !p a) = l.length := by
  induction l with
  | nil => rfl
  | cons a t ih =>
    by_cases h : p a <;> simp [List.countP_cons, h, ← ih] <;> omega

/-- C6: no per-item failure aborts the evaluation batch — the run is a
total function returning exactly the records of the sampled items that
succeeded; in particular, when exactly one sampled item lacks a built
index (Python-falsy lookup) and every item with an index succeeds, the
run completes with exactly one fewer record than the sample size
`min(sample_size, |ground truth|)`. -/
theorem C6_skip_semantics (o : EvalOracles) (groundTruth : List GTItem)
    (sampleSize : Nat)
    (h1 : ((evalSample groundTruth sampleSize).filter
        (fun it => !(indexPresent (o.indexFor it.1)))).length = 1)
    (h2 : ∀ it ∈ evalSample groundTruth sampleSize,
        indexPresent (o.indexFor it.1) = true → (evalItem o it).isSome = true) :
    (evaluate_rag o groundTruth sampleSize).length =
      min sampleSize groundTruth.length - 1 ∧
    ∀ r ∈ evaluate_rag o groundTruth sampleSize,
      ∃ it ∈ evalSample groundTruth sampleSize, evalItem o it = some r := by
  constructor
  · have hcong : (evalSample groundTruth sampleSize).countP
        (fun it => (evalItem o it).isSome) =
        (evalSample groundTruth sampleSize).countP
        (fun it => indexPresent (o.indexFor it.1)) := by
      apply List.countP_congr
      intro it hit
      constructor
      · intro hs
        by_contra hnp
        have hfalse : indexPresent (o.indexFor it.1) = false := by
          cases hval : indexPresent (o.indexFor it.1)
          · rfl
          · exact absurd hval hnp
        rw [evalItem_none_of_no_index o it hfalse] at hs
        exact absurd hs (by simp)
      · exact h2 it hit
    have hsplit := countP_bool_split
      (fun it => indexPresent (o.indexFor it.1)) (evalSample groundTruth sampleSize)
    have hfilter := List.countP_eq_length_filter
      (fun it => !(indexPresent (o.indexFor it.1))) (evalSample groundTruth sampleSize)
    have hlen : (evalSample groundTruth sampleSize).length =
        min sampleSize groundTruth.length := by
      rw [evalSample, pandasSample, sampleGo_length]; omega
    rw [evaluate_rag, length_filterMap_eq_countP, hcong]
    omega
  · intro r hr
    exact List.mem_filterMap.mp hr

/-- Oracles for the C6 witness: video "vidB" has an index, "vidA" does
not; retrieval, answer generation and judging succeed. -/
def c6Oracles : EvalOracles :=
  { indexFor := fun v => if v == "vidB" then some "idx" else none
    searchO := fun _ _ _ _ => Except.ok [{ content := "passage" }]
    chatO := fun _ => Except.ok "ans"
    judgeO := fun _ => Except.ok (Json.obj
      [("Relevance", Json.str "RELEVANT"), ("Explanation", Json.str "ok")]) }

/-- A two-item ground-truth set, one item per video. -/
def gtTwo : List GTItem := [("vidA", "qA"), ("vidB", "qB")]

/-- C6, witness: with one of the two sampled items lacking an index and
the other succeeding, the run completes with one record instead of two. -/
theorem C6_skip_semantics_witness :
    (evaluate_rag c6Oracles gtTwo 2).length = min 2 gtTwo.length - 1 :=
  (C6_skip_semantics c6Oracles gtTwo 2 (by decide) (by decide)).1

/-! ### C7 — ground-truth generation failure surface -/

/-- A chat oracle returning non-JSON prose. -/
def proseChat : String → Except String String :=
  fun _ => Except.ok "Here are ten questions about the video ..."

/-- Modelled `json.loads` raising `JSONDecodeError` on that prose. -/
def failLoads : String → Except String Json :=
  fun _ => Except.error "Expecting value: line 1 column 1 (char 0)"

/-- C7, counterexample: when the model response is not valid JSON,
`generate_ground_truth` returns `None` normally (after showing an error
message) — nothing is raised, and no `GroundTruthParseError` type exists
anywhere in the program, refuting the claim as stated. -/
theorem C7_parse_failure_returns_none :
    generate_ground_truth proseChat failLoads (some "vid") "transcript text" =
      Except.ok none := by rfl

/-- C7 (amended): ground-truth generation never raises a
`GroundTruthParseError` (no such type exists in the program); it returns
`None` — with an error message shown, not a silently produced empty
dataset — when the model call raises, when the response is not valid
JSON, when the parsed value is Python-falsy, or when it is an object
without a `questions` entry; when the response parses to an object whose
`questions` entry is a list, it yields exactly one (video label,
question) row per entry of that list. -/
theorem C7_ground_truth_amended (chatO : String → Except String String)
    (loads : String → Except String Json) (videoId : Option String)
    (transcript : String) :
    (∀ e, chatO (questionsPrompt transcript) = Except.error e →
      generate_ground_truth chatO loads videoId transcript = Except.ok none) ∧
    (∀ s e, chatO (questionsPrompt transcript) = Except.ok s →
      loads s = Except.error e →
      generate_ground_truth chatO loads videoId transcript = Except.ok none) ∧
    (∀ s j, chatO (questionsPrompt transcript) = Except.ok s →
      loads s = Except.ok j → pyTruthy j = false →
      generate_ground_truth chatO loads videoId transcript = Except.ok none) ∧
    (∀ s fields, chatO (questionsPrompt transcript) = Except.ok s →
      loads s = Except.ok (Json.obj fields) →
      jsonLookup fields "questions" = none →
      generate_ground_truth chatO loads videoId transcript = Except.ok none) ∧
    (∀ s fields qs, chatO (questionsPrompt transcript) = Except.ok s →
      loads s = Except.ok (Json.obj fields) →
      jsonLookup fields "questions" = some (Json.arr qs) →
      generate_ground_truth chatO loads videoId transcript =
        Except.ok (some (qs.map (fun q => (pyVideoLabel videoId, q)))) ∧
      (qs.map (fun q => (pyVideoLabel videoId, q))).length = qs.length) := by
  refine ⟨?_, ?_, ?_, ?_, ?_⟩
  · intro e hc
    simp [generate_ground_truth, generate_questions, hc]
  · intro s e hc hl
    simp [generate_ground_truth, generate_questions, hc, hl]
  · intro s j hc hl ht
    simp [generate_ground_truth, generate_questions, hc, hl, ht]
  · intro s fields hc hl hlook
    by_cases ht : pyTruthy (Json.obj fields) = true
    · simp [generate_ground_truth, generate_questions, hc, hl, ht,
        pyContainsStr, hlook]
    · simp [generate_ground_truth, generate_questions, hc, hl,
        Bool.of_not_eq_true ht]
  · intro s fields qs hc hl hlook
    have hne : fields ≠ [] := by
      intro h; rw [h] at hlook; simp [jsonLookup] at hlook
    have ht : pyTruthy (Json.obj fields) = true := by
      cases fields with
      | nil => exact absurd rfl hne
      | cons f fs => simp [pyTruthy]
    refine ⟨?_, by simp⟩
    have hmem : (jsonLookup fields "questions").isSome = true := by
      rw [hlook]; rfl
    simp [generate_ground_truth, generate_questions, hc, hl, ht,
      pyContainsStr, hmem, pyGetItemStr, hlook, pyIter]

/-- A loads oracle producing a well-formed questions object. -/
def goodLoads : String → Except String Json :=
  fun _ => Except.ok (Json.obj
    [("questions", Json.arr [Json.str "q1", Json.str "q2"])])

/-- A chat oracle returning some fixed text (parsed by `goodLoads`). -/
def jsonChat : String → Except String String :=
  fun _ => Except.ok "json text"

/-- C7, witness: a parsed `questions` list with two entries yields
exactly two rows labelled with the video id. -/
theorem C7_ground_truth_witness :
    generate_ground_truth jsonChat goodLoads (some "vid") "t" =
      Except.ok (some [("vid", Json.str "q1"), ("vid", Json.str "q2")]) := by
  have h := ((C7_ground_truth_amended jsonChat goodLoads (some "vid") "t").2.2.2.2
    "json text" [("questions", Json.arr [Json.str "q1", Json.str "q2"])]
    [Json.str "q1", Json.str "q2"] rfl rfl rfl).1
  rw [h]
  rfl

/-! ### C8 — relevance labels of persisted evaluation records -/

/-- Oracles whose judge returns valid JSON without a `Relevance` key. -/
def c8Oracles : EvalOracles :=
  { indexFor := fun _ => some "idx"
    searchO := fun _ _ _ _ => Except.ok [{ content := "passage" }]
    chatO := fun _ => Except.ok "ans"
    judgeO := fun _ => Except.ok (Json.obj [("Explanation", Json.str "e")]) }

/-- C8, counterexample: a judge response that is valid JSON but lacks
the `Relevance` key makes `evaluate_rag` persist a record labelled
`"UNKNOWN"` — a label outside {NON_RELEVANT, PARTLY_RELEVANT, RELEVANT}
— refuting the claim that no such record is ever persisted. -/
theorem C8_unknown_label_persisted :
    evaluate_rag c8Oracles [("v1", "q1")] 1 =
      [{ videoId := "v1", question := "q1", answer := "ans",
         relevance := "UNKNOWN", explanation := "e" }] ∧
    relevanceStrings.contains "UNKNOWN" = false := ⟨by rfl, by rfl⟩

/-- C8 (amended): every persisted record's relevance label is the
Python `str()` of the judge object's `Relevance` value, defaulting to
`"UNKNOWN"` when the field is absent; nothing in the code restricts it
to the three-value set.  It lies in {NON_RELEVANT, PARTLY_RELEVANT,
RELEVANT} whenever every successful judge response is an object whose
`Relevance` field is one of those three strings. -/
theorem C8_labels_amended (o : EvalOracles) (groundTruth : List GTItem)
    (sampleSize : Nat)
    (hj : ∀ p j, o.judgeO p = Except.ok j → ∃ fields,
        j = Json.obj fields ∧ ∃ s,
          jsonLookup fields "Relevance" = some (Json.str s) ∧
          s ∈ relevanceStrings) :
    ∀ r ∈ evaluate_rag o groundTruth sampleSize,
      r.relevance ∈ relevanceStrings := by
  intro r hr
  obtain ⟨it, hit, hsome⟩ := List.mem_filterMap.mp hr
  unfold evalItem at hsome
  cases hx : o.indexFor it.1 with
  | none => rw [hx] at hsome; exact absurd hsome (by simp)
  | some idx =>
    rw [hx] at hsome
    by_cases hidx : idx = ""
    · simp only [if_pos hidx] at hsome
      exact absurd hsome (by simp)
    · simp only [if_neg hidx] at hsome
      cases hjout : o.judgeO (judgePrompt it.2
          (RAGSystem.query o.searchO o.chatO "hybrid" it.2 (some idx)).1) with
      | error e => rw [hjout] at hsome; exact absurd hsome (by simp)
      | ok j =>
        rw [hjout] at hsome
        obtain ⟨fields, rfl, s, hlook, hmem⟩ := hj _ j hjout
        simp only [hlook] at hsome
        cases hsome
        simpa [pyStr, pyScalar] using hmem

/-- Oracles whose judge answers with one of the three labels. -/
def c8GoodOracles : EvalOracles :=
  { indexFor := fun _ => some "idx"
    searchO := fun _ _ _ _ => Except.ok [{ content := "passage" }]
    chatO := fun _ => Except.ok "ans"
    judgeO := fun _ => Except.ok (Json.obj
      [("Relevance", Json.str "PARTLY_RELEVANT"), ("Explanation", Json.str "e")]) }

/-- C8, witness: the single record of a one-item run with a law-abiding
judge carries a label inside the three-value set. -/
theorem C8_labels_witness :
    ({ videoId := "v1", question := "q1", answer := "ans",
       relevance := "PARTLY_RELEVANT", explanation := "e" } : EvalRecord).relevance
      ∈ relevanceStrings :=
  C8_labels_amended c8GoodOracles [("v1", "q1")] 1
    (fun p j h => by
      cases h
      exact ⟨_, rfl, "PARTLY_RELEVANT", rfl, by decide⟩)
    _ (by decide)
